import Mathlib

/-!
Shallow embedding of `src/main.py`, the conditional-access policy simulator
(`PolicySimulator.simulate_access`).

Modelling choices, each traceable to a line of the source:
* The three loaded JSON files are `Option` values: `none` models a file that
  failed to load (`_load_data` returns `{}`, which is falsy and caught by the
  `if not self.policies or not self.users or not self.context` check on
  line 77).
* Times of day are minutes since midnight (`Nat`).  `parseTime` models
  `datetime.strptime(s, "%H:%M").time()`: one colon, one- or two-digit hour
  below 24, one- or two-digit minute below 60; anything else raises, which we
  model as `none` feeding `CondResult.error`.
* The Python function returns a bare `bool` and reports everything else via
  `print`/`logging`.  `SimResult.decision` carries that returned bool together
  with the list of messages emitted (the observable log); `SimResult.error`
  models an uncaught `ValueError` escaping from `strptime` (lines 109-110).
  `pyReturn` projects out exactly what the Python `return` statement yields.
* Absent JSON keys map to the same defaults the code's `.get` calls use:
  `conditions.get("time", {})` with a falsy check is `Option TimeRestrictions`
  (an empty dict behaves like an absent one), `conditions.get("location", [])`
  is a `List String` whose emptiness is the falsy check, and
  `conditions.get("device_health", "")` is a `String` compared against `""`.
-/

structure TimeRestrictions where
  start_time : Option String
  end_time : Option String
deriving DecidableEq

structure Conditions where
  time : Option TimeRestrictions
  location : List String
  device_health : String
deriving DecidableEq

structure GrantControls where
  access : Option String
deriving DecidableEq

structure Policy where
  name : String
  status : String
  users : List String
  conditions : Conditions
  grant_controls : GrantControls
deriving DecidableEq

structure User where
  id : String
deriving DecidableEq

structure Context where
  location : Option String
  device_health : Option String
deriving DecidableEq

structure PolicyFile where
  policies : List Policy
deriving DecidableEq

structure UserFile where
  users : List User
deriving DecidableEq

structure ContextFile where
  context : Context
deriving DecidableEq

inductive SimError where
  | invalidTimeFormat (s : String)
deriving DecidableEq

/-- Result of checking one condition block: either the boolean outcome or an
exception raised while parsing a time string. -/
inductive CondResult where
  | error (e : SimError)
  | ok (met : Bool)
deriving DecidableEq

/-- One `print`/`logging` message emitted by `simulate_access`
(lines 78, 85, 137, 140, 143 of `src/main.py`). -/
inductive LogEvent where
  | dataNotLoaded
  | userNotFound (user_id : String)
  | policyGranted (policy : String) (user_id : String)
  | policyNoGrant (policy : String) (user_id : String)
  | accessDenied (user_id : String)
deriving DecidableEq

/-- Overall outcome of one `simulate_access` call: the returned boolean plus
the emitted messages, or an uncaught exception. -/
inductive SimResult where
  | error (e : SimError)
  | decision (granted : Bool) (log : List LogEvent)
deriving DecidableEq

/-- What the Python `return` statement yields: `some b` on a normal return,
`none` when an exception escapes. -/
def pyReturn : SimResult → Option Bool
  | .error _ => none
  | .decision g _ => some g

/-- Value of one decimal digit character. -/
def charDigit (c : Char) : Option Nat :=
  if '0' ≤ c ∧ c ≤ '9' then some (c.toNat - '0'.toNat) else none

/-- Decimal value of a nonempty all-digit character list; `none` otherwise. -/
def digitsToNat : List Char → Option Nat
  | [] => none
  | cs =>
    cs.foldl
      (fun acc c =>
        match acc, charDigit c with
        | some a, some d => some (a * 10 + d)
        | _, _ => none)
      (some 0)

/-- Split a character list at its first colon. -/
def breakColon : List Char → Option (List Char × List Char)
  | [] => none
  | c :: cs =>
    if c = ':' then some ([], cs)
    else (breakColon cs).map (fun p => (c :: p.1, p.2))

/-- Model of `datetime.strptime(s, "%H:%M").time()` as minutes since
midnight: `none` models the `ValueError` raised on a malformed string. -/
def parseTime (s : String) : Option Nat :=
  match breakColon s.toList with
  | none => none
  | some (h, m) =>
    if h.length ≤ 2 ∧ m.length ≤ 2 then
      match digitsToNat h, digitsToNat m with
      | some hv, some mv =>
        if hv < 24 ∧ mv < 60 then some (hv * 60 + mv) else none
      | _, _ => none
    else none

/-- Lines 104-112: the time condition.  An absent/empty `time` dict is
vacuously satisfied; otherwise the start string (default `"00:00"`) is parsed
first, then the end string (default `"23:59"`), a malformed one raising; the
window test is `start_time <= current_time <= end_time`, inclusive. -/
def timeCheck (tr : Option TimeRestrictions) (t : Nat) : CondResult :=
  match tr with
  | none => .ok true
  | some r =>
    let ss := r.start_time.getD "00:00"
    match parseTime ss with
    | none => .error (.invalidTimeFormat ss)
    | some s =>
      let es := r.end_time.getD "23:59"
      match parseTime es with
      | none => .error (.invalidTimeFormat es)
      | some e => .ok (decide (s ≤ t) && decide (t ≤ e))

/-- Lines 114-121: the location condition.  An empty list is vacuously
satisfied; otherwise the context's location must be a member. -/
def locationCheck (allowed : List String) (c : Context) : Bool :=
  if allowed.isEmpty then true
  else
    match c.location with
    | some l => allowed.contains l
    | none => false

/-- Lines 123-130: the device-health condition.  An empty requirement is
vacuously satisfied; otherwise the context's device health must equal it. -/
def deviceCheck (required : String) (c : Context) : Bool :=
  if required = "" then true
  else
    match c.device_health with
    | some d => d == required
    | none => false

/-- Lines 104-133: the conjunction of the three condition checks for one
policy, with a time-parse exception propagating. -/
def condsOk (cond : Conditions) (c : Context) (t : Nat) : CondResult :=
  match timeCheck cond.time t with
  | .error e => .error e
  | .ok tm => .ok (tm && locationCheck cond.location c && deviceCheck cond.device_health c)

/-- Lines 96-141: the policy loop.  Disabled or non-targeting policies are
skipped silently; a matching granting policy ends the scan with `True`; a
matching non-granting policy logs and continues; a time-parse exception
aborts the whole call. -/
def evalPolicies (user_id : String) (c : Context) (t : Nat) : List Policy → SimResult
  | [] => .decision false []
  | p :: rest =>
    if p.status = "enabled" then
      if user_id ∈ p.users then
        match condsOk p.conditions c t with
        | .error e => .error e
        | .ok true =>
          if p.grant_controls.access = some "grant" then
            .decision true [.policyGranted p.name user_id]
          else
            match evalPolicies user_id c t rest with
            | .error e => .error e
            | .decision g log => .decision g (.policyNoGrant p.name user_id :: log)
        | .ok false => evalPolicies user_id c t rest
      else evalPolicies user_id c t rest
    else evalPolicies user_id c t rest

/-- Lines 66-144: `PolicySimulator.simulate_access`, with the evaluation
instant (`datetime.now().time()`, line 91) made an explicit parameter. -/
def simulate_access (policies : Option PolicyFile) (users : Option UserFile)
    (context : Option ContextFile) (user_id : String) (current_time : Nat) : SimResult :=
  match policies, users, context with
  | some pf, some uf, some cf =>
    match uf.users.find? (fun u => u.id == user_id) with
    | none => .decision false [.userNotFound user_id]
    | some _ =>
      match evalPolicies user_id cf.context current_time pf.policies with
      | .error e => .error e
      | .decision g log =>
        if g then .decision true log
        else .decision false (log ++ [.accessDenied user_id])
  | _, _, _ => .decision false [.dataNotLoaded]

/-- A policy that qualifies to grant: enabled, targeting the subject,
conditions satisfied, and `grant_controls.access == "grant"`. -/
def qualifies (user_id : String) (c : Context) (t : Nat) (p : Policy) : Prop :=
  p.status = "enabled" ∧ user_id ∈ p.users ∧
    condsOk p.conditions c t = .ok true ∧ p.grant_controls.access = some "grant"

instance (user_id : String) (c : Context) (t : Nat) (p : Policy) :
    Decidable (qualifies user_id c t p) := by
  unfold qualifies
  infer_instance

/-- Whether a log contains a grant message naming an authorizing policy. -/
def hasGrantEvent (log : List LogEvent) : Bool :=
  log.any (fun ev => match ev with | .policyGranted _ _ => true | _ => false)

-- Concrete fixtures used by witnesses and counterexamples (mirroring the
-- example JSON in the module docstring of `src/main.py`).

def ufD : UserFile := ⟨[⟨"u1"⟩]⟩

def cfD : ContextFile := ⟨⟨some "USA", some "compliant"⟩⟩

def pGrantAll : Policy := ⟨"P1", "enabled", ["u1"], ⟨none, [], ""⟩, ⟨some "grant"⟩⟩

def pGrantAll2 : Policy := ⟨"P2", "enabled", ["u1"], ⟨none, [], ""⟩, ⟨some "grant"⟩⟩

def pBlock : Policy := ⟨"B1", "enabled", ["u1"], ⟨none, [], ""⟩, ⟨some "block"⟩⟩

def pDenyLoc : Policy := ⟨"L1", "enabled", ["u1"], ⟨none, ["Canada"], ""⟩, ⟨some "grant"⟩⟩

def pMalformed : Policy :=
  ⟨"M1", "enabled", ["u1"], ⟨some ⟨some "banana", some "18:00"⟩, [], ""⟩, ⟨some "grant"⟩⟩

def pWindow : Policy :=
  ⟨"W1", "enabled", ["u1"], ⟨some ⟨some "08:00", some "18:00"⟩, [], ""⟩, ⟨some "grant"⟩⟩

def pDisabled : Policy := ⟨"D1", "disabled", ["u1"], ⟨none, [], ""⟩, ⟨some "grant"⟩⟩

def pOvernight : Policy :=
  ⟨"N1", "enabled", ["u1"], ⟨some ⟨some "18:00", some "08:00"⟩, [], ""⟩, ⟨some "grant"⟩⟩

-- Step lemmas for one iteration of the policy loop.

theorem evalPolicies_nil (uid : String) (c : Context) (t : Nat) :
    evalPolicies uid c t [] = .decision false [] := rfl

theorem eval_cons_disabled (uid : String) (c : Context) (t : Nat) (p : Policy)
    (rest : List Policy) (h1 : ¬ p.status = "enabled") :
    evalPolicies uid c t (p :: rest) = evalPolicies uid c t rest := by
  simp [evalPolicies, h1]

theorem eval_cons_not_target (uid : String) (c : Context) (t : Nat) (p : Policy)
    (rest : List Policy) (h1 : p.status = "enabled")
    (h2 : uid ∉ p.users) :
    evalPolicies uid c t (p :: rest) = evalPolicies uid c t rest := by
  simp [evalPolicies, h1, h2]

theorem eval_cons_condfail (uid : String) (c : Context) (t : Nat) (p : Policy)
    (rest : List Policy) (h1 : p.status = "enabled")
    (h2 : uid ∈ p.users)
    (h3 : condsOk p.conditions c t = .ok false) :
    evalPolicies uid c t (p :: rest) = evalPolicies uid c t rest := by
  simp [evalPolicies, h1, h2, h3]

theorem eval_cons_conderr (uid : String) (c : Context) (t : Nat) (p : Policy)
    (rest : List Policy) (e : SimError) (h1 : p.status = "enabled")
    (h2 : uid ∈ p.users)
    (h3 : condsOk p.conditions c t = .error e) :
    evalPolicies uid c t (p :: rest) = .error e := by
  simp [evalPolicies, h1, h2, h3]

theorem eval_cons_grant (uid : String) (c : Context) (t : Nat) (p : Policy)
    (rest : List Policy) (h1 : p.status = "enabled")
    (h2 : uid ∈ p.users)
    (h3 : condsOk p.conditions c t = .ok true)
    (h4 : p.grant_controls.access = some "grant") :
    evalPolicies uid c t (p :: rest) = .decision true [.policyGranted p.name uid] := by
  simp [evalPolicies, h1, h2, h3, h4]

theorem eval_cons_nogrant (uid : String) (c : Context) (t : Nat) (p : Policy)
    (rest : List Policy) (g : Bool) (log : List LogEvent)
    (h1 : p.status = "enabled") (h2 : uid ∈ p.users)
    (h3 : condsOk p.conditions c t = .ok true)
    (h4 : ¬ p.grant_controls.access = some "grant")
    (h5 : evalPolicies uid c t rest = .decision g log) :
    evalPolicies uid c t (p :: rest) =
      .decision g (.policyNoGrant p.name uid :: log) := by
  simp [evalPolicies, h1, h2, h3, h4, h5]

theorem eval_cons_nogrant_err (uid : String) (c : Context) (t : Nat) (p : Policy)
    (rest : List Policy) (e : SimError)
    (h1 : p.status = "enabled") (h2 : uid ∈ p.users)
    (h3 : condsOk p.conditions c t = .ok true)
    (h4 : ¬ p.grant_controls.access = some "grant")
    (h5 : evalPolicies uid c t rest = .error e) :
    evalPolicies uid c t (p :: rest) = .error e := by
  simp [evalPolicies, h1, h2, h3, h4, h5]

/-- A scan that has produced neither a grant nor an exception continues into
the remainder of the list, its messages accumulating in front. -/
theorem evalPolicies_append (uid : String) (c : Context) (t : Nat) :
    ∀ (l₁ : List Policy) (log₁ : List LogEvent),
      evalPolicies uid c t l₁ = .decision false log₁ →
      ∀ l₂ : List Policy,
        evalPolicies uid c t (l₁ ++ l₂) =
          match evalPolicies uid c t l₂ with
          | .error e => .error e
          | .decision g log₂ => .decision g (log₁ ++ log₂) := by
  intro l₁
  induction l₁ with
  | nil =>
    intro log₁ h l₂
    rw [evalPolicies_nil] at h
    cases h
    cases heq : evalPolicies uid c t l₂ <;> simp [heq]
  | cons p l₁ ih =>
    intro log₁ h l₂
    by_cases h1 : p.status = "enabled"
    · by_cases h2 : uid ∈ p.users
      · cases h3 : condsOk p.conditions c t with
        | error e =>
          rw [eval_cons_conderr uid c t p l₁ e h1 h2 h3] at h
          cases h
        | ok met =>
          cases met with
          | false =>
            rw [eval_cons_condfail uid c t p l₁ h1 h2 h3] at h
            rw [List.cons_append, eval_cons_condfail uid c t p (l₁ ++ l₂) h1 h2 h3]
            exact ih log₁ h l₂
          | true =>
            by_cases h4 : p.grant_controls.access = some "grant"
            · rw [eval_cons_grant uid c t p l₁ h1 h2 h3 h4] at h
              exact absurd (SimResult.decision.inj h).left (by decide)
            · cases heq : evalPolicies uid c t l₁ with
              | error e =>
                rw [eval_cons_nogrant_err uid c t p l₁ e h1 h2 h3 h4 heq] at h
                cases h
              | decision g log =>
                rw [eval_cons_nogrant uid c t p l₁ g log h1 h2 h3 h4 heq] at h
                obtain ⟨hg, hl⟩ := SimResult.decision.inj h
                subst hg
                subst hl
                have hmid := ih log heq l₂
                cases heq2 : evalPolicies uid c t l₂ with
                | error e =>
                  rw [heq2] at hmid
                  rw [List.cons_append,
                    eval_cons_nogrant_err uid c t p (l₁ ++ l₂) e h1 h2 h3 h4 hmid]
                | decision g₂ log₂ =>
                  rw [heq2] at hmid
                  rw [List.cons_append,
                    eval_cons_nogrant uid c t p (l₁ ++ l₂) g₂ (log ++ log₂) h1 h2 h3 h4 hmid]
                  simp
      · rw [eval_cons_not_target uid c t p l₁ h1 h2] at h
        rw [List.cons_append, eval_cons_not_target uid c t p (l₁ ++ l₂) h1 h2]
        exact ih log₁ h l₂
    · rw [eval_cons_disabled uid c t p l₁ h1] at h
      rw [List.cons_append, eval_cons_disabled uid c t p (l₁ ++ l₂) h1]
      exact ih log₁ h l₂
/-- When all three files loaded and the subject is found, `simulate_access`
is the policy scan followed by the final deny message when nothing granted. -/
theorem simulate_access_eval (pf : PolicyFile) (uf : UserFile) (cf : ContextFile)
    (uid : String) (t : Nat) (u : User)
    (hu : uf.users.find? (fun x => x.id == uid) = some u) :
    simulate_access (some pf) (some uf) (some cf) uid t =
      match evalPolicies uid cf.context t pf.policies with
      | .error e => .error e
      | .decision g log =>
        if g then .decision true log
        else .decision false (log ++ [.accessDenied uid]) := by
  simp [simulate_access, hu]

/-- Claim C1: if an enabled policy targeting the subject satisfies its
conditions and grants, and the scan reaches it (the earlier policies produced
neither a grant nor an exception), then the decision is a grant citing that
policy -- even when a second qualifying granting policy follows -- and the
outcome is identical for every possible list of later policies, so evaluation
examines nothing after the first qualifying grant. -/
theorem first_grant_wins (pf : PolicyFile) (uf : UserFile) (cf : ContextFile)
    (uid : String) (t : Nat) (u : User) (l₁ l₂ : List Policy) (p q : Policy)
    (log₁ : List LogEvent)
    (hpols : pf.policies = l₁ ++ p :: l₂)
    (hu : uf.users.find? (fun x => x.id == uid) = some u)
    (hpre : evalPolicies uid cf.context t l₁ = .decision false log₁)
    (hp : qualifies uid cf.context t p)
    (hq : q ∈ l₂) (hq2 : qualifies uid cf.context t q) :
    simulate_access (some pf) (some uf) (some cf) uid t =
      .decision true (log₁ ++ [.policyGranted p.name uid]) ∧
    ∀ l₂' : List Policy,
      simulate_access (some ⟨l₁ ++ p :: l₂'⟩) (some uf) (some cf) uid t =
        .decision true (log₁ ++ [.policyGranted p.name uid]) := by
  obtain ⟨h1, h2, h3, h4⟩ := hp
  have key : ∀ l₂' : List Policy,
      evalPolicies uid cf.context t (l₁ ++ p :: l₂') =
        .decision true (log₁ ++ [.policyGranted p.name uid]) := by
    intro l₂'
    rw [evalPolicies_append uid cf.context t l₁ log₁ hpre (p :: l₂'),
      eval_cons_grant uid cf.context t p l₂' h1 h2 h3 h4]
  constructor
  · rw [simulate_access_eval pf uf cf uid t u hu, hpols, key l₂]
    rfl
  · intro l₂'
    rw [simulate_access_eval ⟨l₁ ++ p :: l₂'⟩ uf cf uid t u hu]
    have hk := key l₂'
    simp only [hk]
    rfl

theorem first_grant_wins_witness :
    simulate_access (some ⟨[pGrantAll, pGrantAll2]⟩) (some ufD) (some cfD) "u1" 720 =
      .decision true [.policyGranted "P1" "u1"] := by
  have h := first_grant_wins ⟨[pGrantAll, pGrantAll2]⟩ ufD cfD "u1" 720 ⟨"u1"⟩
    [] [pGrantAll2] pGrantAll pGrantAll2 [] (by decide) (by decide) (by decide)
    (by decide) (by decide) (by decide)
  exact h.1

/-- Claim C2: a matched-but-non-granting policy logs and continues the scan,
so a later qualifying granting policy still produces the grant. -/
theorem nongrant_does_not_halt (pf : PolicyFile) (uf : UserFile) (cf : ContextFile)
    (uid : String) (t : Nat) (u : User) (l₁ l₂ l₃ : List Policy) (p q : Policy)
    (log₁ log₂ : List LogEvent)
    (hpols : pf.policies = l₁ ++ p :: (l₂ ++ q :: l₃))
    (hu : uf.users.find? (fun x => x.id == uid) = some u)
    (hpre : evalPolicies uid cf.context t l₁ = .decision false log₁)
    (hp1 : p.status = "enabled") (hp2 : uid ∈ p.users)
    (hp3 : condsOk p.conditions cf.context t = .ok true)
    (hp4 : ¬ p.grant_controls.access = some "grant")
    (hmid : evalPolicies uid cf.context t l₂ = .decision false log₂)
    (hq : qualifies uid cf.context t q) :
    simulate_access (some pf) (some uf) (some cf) uid t =
      .decision true
        (log₁ ++ .policyNoGrant p.name uid :: (log₂ ++ [.policyGranted q.name uid])) := by
  obtain ⟨hq1, hq2, hq3, hq4⟩ := hq
  have e1 : evalPolicies uid cf.context t (l₂ ++ q :: l₃) =
      .decision true (log₂ ++ [.policyGranted q.name uid]) := by
    rw [evalPolicies_append uid cf.context t l₂ log₂ hmid (q :: l₃),
      eval_cons_grant uid cf.context t q l₃ hq1 hq2 hq3 hq4]
  have e2 : evalPolicies uid cf.context t (p :: (l₂ ++ q :: l₃)) =
      .decision true (.policyNoGrant p.name uid :: (log₂ ++ [.policyGranted q.name uid])) :=
    eval_cons_nogrant uid cf.context t p _ true _ hp1 hp2 hp3 hp4 e1
  have e3 : evalPolicies uid cf.context t (l₁ ++ p :: (l₂ ++ q :: l₃)) =
      .decision true
        (log₁ ++ .policyNoGrant p.name uid :: (log₂ ++ [.policyGranted q.name uid])) := by
    rw [evalPolicies_append uid cf.context t l₁ log₁ hpre, e2]
  rw [simulate_access_eval pf uf cf uid t u hu, hpols, e3]
  rfl

theorem nongrant_does_not_halt_witness :
    simulate_access (some ⟨[pBlock, pGrantAll2]⟩) (some ufD) (some cfD) "u1" 720 =
      .decision true [.policyNoGrant "B1" "u1", .policyGranted "P2" "u1"] := by
  have h := nongrant_does_not_halt ⟨[pBlock, pGrantAll2]⟩ ufD cfD "u1" 720 ⟨"u1"⟩
    [] [] [] pBlock pGrantAll2 [] [] (by decide) (by decide) (by decide)
    (by decide) (by decide) (by decide) (by decide) (by decide) (by decide)
  exact h

/-- When the subject is not found in the directory, the call returns `False`
with the user-not-found message (lines 84-87). -/
theorem simulate_access_nouser (pf : PolicyFile) (uf : UserFile) (cf : ContextFile)
    (uid : String) (t : Nat)
    (hfind : uf.users.find? (fun x => x.id == uid) = none) :
    simulate_access (some pf) (some uf) (some cf) uid t =
      .decision false [.userNotFound uid] := by
  simp [simulate_access, hfind]

/-- A scan over policies none of which qualifies ends in `False` with no
grant message. -/
theorem evalPolicies_no_qualify (uid : String) (c : Context) (t : Nat) :
    ∀ (ps : List Policy) (g : Bool) (log : List LogEvent),
      (∀ p ∈ ps, ¬ qualifies uid c t p) →
      evalPolicies uid c t ps = .decision g log →
      g = false ∧ hasGrantEvent log = false := by
  intro ps
  induction ps with
  | nil =>
    intro g log hq h
    rw [evalPolicies_nil] at h
    obtain ⟨hg, hl⟩ := SimResult.decision.inj h
    subst hg
    subst hl
    exact ⟨rfl, rfl⟩
  | cons p ps ih =>
    intro g log hq h
    have htail : ∀ q ∈ ps, ¬ qualifies uid c t q :=
      fun q hqmem => hq q (List.mem_cons_of_mem p hqmem)
    by_cases h1 : p.status = "enabled"
    · by_cases h2 : uid ∈ p.users
      · cases h3 : condsOk p.conditions c t with
        | error e =>
          rw [eval_cons_conderr uid c t p ps e h1 h2 h3] at h
          cases h
        | ok met =>
          cases met with
          | false =>
            rw [eval_cons_condfail uid c t p ps h1 h2 h3] at h
            exact ih g log htail h
          | true =>
            by_cases h4 : p.grant_controls.access = some "grant"
            · exact absurd ⟨h1, h2, h3, h4⟩ (hq p (List.mem_cons_self p ps))
            · cases heq : evalPolicies uid c t ps with
              | error e =>
                rw [eval_cons_nogrant_err uid c t p ps e h1 h2 h3 h4 heq] at h
                cases h
              | decision g' log' =>
                rw [eval_cons_nogrant uid c t p ps g' log' h1 h2 h3 h4 heq] at h
                obtain ⟨hg, hl⟩ := SimResult.decision.inj h
                subst hg
                subst hl
                obtain ⟨ihg, ihl⟩ := ih g' log' htail heq
                refine ⟨ihg, ?_⟩
                simp [hasGrantEvent] at ihl ⊢
                exact ihl
      · rw [eval_cons_not_target uid c t p ps h1 h2] at h
        exact ih g log htail h
    · rw [eval_cons_disabled uid c t p ps h1] at h
      exact ih g log htail h

/-- Claim C3: whenever no enabled policy targeting the subject both satisfies
its conditions and carries `access == "grant"` (in particular when nothing
targets the subject or everything targeting it is disabled), any decision the
call produces is a deny, and its log names no authorizing policy. -/
theorem no_qualifying_grant_denies (policies : Option PolicyFile)
    (users : Option UserFile) (context : Option ContextFile) (uid : String)
    (t : Nat) (g : Bool) (log : List LogEvent)
    (hnq : ∀ pf cf, policies = some pf → context = some cf →
      ∀ p ∈ pf.policies, ¬ qualifies uid cf.context t p)
    (h : simulate_access policies users context uid t = .decision g log) :
    g = false ∧ hasGrantEvent log = false := by
  cases policies with
  | none =>
    cases users <;> cases context <;>
      (obtain ⟨hg, hl⟩ := SimResult.decision.inj h; subst hg; subst hl; exact ⟨rfl, rfl⟩)
  | some pf =>
    cases users with
    | none =>
      cases context <;>
        (obtain ⟨hg, hl⟩ := SimResult.decision.inj h; subst hg; subst hl; exact ⟨rfl, rfl⟩)
    | some uf =>
      cases context with
      | none =>
        obtain ⟨hg, hl⟩ := SimResult.decision.inj h
        subst hg
        subst hl
        exact ⟨rfl, rfl⟩
      | some cf =>
        cases hfind : uf.users.find? (fun x => x.id == uid) with
        | none =>
          rw [simulate_access_nouser pf uf cf uid t hfind] at h
          obtain ⟨hg, hl⟩ := SimResult.decision.inj h
          subst hg
          subst hl
          exact ⟨rfl, rfl⟩
        | some u =>
          rw [simulate_access_eval pf uf cf uid t u hfind] at h
          cases heq : evalPolicies uid cf.context t pf.policies with
          | error e =>
            rw [heq] at h
            simp at h
          | decision g' log' =>
            rw [heq] at h
            obtain ⟨hg', hl'⟩ :=
              evalPolicies_no_qualify uid cf.context t pf.policies g' log'
                (hnq pf cf rfl rfl) heq
            subst hg'
            simp only [Bool.false_eq_true, if_false] at h
            obtain ⟨hg, hl⟩ := SimResult.decision.inj h
            subst hg
            subst hl
            refine ⟨rfl, ?_⟩
            simp [hasGrantEvent] at hl' ⊢
            exact hl'

theorem no_qualifying_grant_denies_witness :
    (false = false) ∧ hasGrantEvent [.accessDenied "u1"] = false := by
  exact no_qualifying_grant_denies (some ⟨[pDisabled]⟩) (some ufD) (some cfD)
    "u1" 720 false [.accessDenied "u1"]
    (by
      intro pf cf hpf hcf
      cases hpf
      cases hcf
      decide)
    (by decide)

/-- Claim C4: a subject id absent from the user directory yields an ordinary
deny with the user-not-found message, not an exception, whatever the policy
list contains. -/
theorem unknown_subject_denies (pf : PolicyFile) (uf : UserFile) (cf : ContextFile)
    (uid : String) (t : Nat) (h : ∀ u ∈ uf.users, ¬ u.id = uid) :
    simulate_access (some pf) (some uf) (some cf) uid t =
      .decision false [.userNotFound uid] := by
  have hfind : uf.users.find? (fun x => x.id == uid) = none := by
    rw [List.find?_eq_none]
    intro u hu
    simpa using h u hu
  exact simulate_access_nouser pf uf cf uid t hfind

theorem unknown_subject_denies_witness :
    simulate_access (some ⟨[pGrantAll]⟩) (some ⟨[⟨"u2"⟩]⟩) (some cfD) "u1" 720 =
      .decision false [.userNotFound "u1"] :=
  unknown_subject_denies ⟨[pGrantAll]⟩ ⟨[⟨"u2"⟩]⟩ cfD "u1" 720 (by decide)

/-- Claim C5 counterexample: with the policies file missing, the call returns
the very same value (`False`) that a legitimate denied-by-policy run returns,
so the caller cannot distinguish the two from the returned result. -/
theorem data_unavailable_conflated_cex :
    pyReturn (simulate_access none (some ufD) (some cfD) "u1" 720) =
      pyReturn (simulate_access (some ⟨[pDenyLoc]⟩) (some ufD) (some cfD) "u1" 720) ∧
    pyReturn (simulate_access (some ⟨[pDenyLoc]⟩) (some ufD) (some cfD) "u1" 720) =
      some false := by
  constructor <;> decide

/-- Claim C5 (amended): when any of the three inputs is structurally missing,
the call prints a data-not-loaded error message but returns plain `False` —
the same returned value as a legitimate deny; only the message, not the
returned result, distinguishes the two. -/
theorem data_unavailable_plain_deny (policies : Option PolicyFile)
    (users : Option UserFile) (context : Option ContextFile) (uid : String)
    (t : Nat) (h : policies = none ∨ users = none ∨ context = none) :
    simulate_access policies users context uid t =
      .decision false [.dataNotLoaded] ∧
    pyReturn (simulate_access policies users context uid t) = some false := by
  rcases h with h | h | h
  · subst h
    cases users <;> cases context <;> exact ⟨rfl, rfl⟩
  · subst h
    cases policies <;> cases context <;> exact ⟨rfl, rfl⟩
  · subst h
    cases policies <;> cases users <;> exact ⟨rfl, rfl⟩

theorem data_unavailable_plain_deny_witness :
    simulate_access none (some ufD) (some cfD) "u1" 720 =
      .decision false [.dataNotLoaded] ∧
    pyReturn (simulate_access none (some ufD) (some cfD) "u1" 720) = some false :=
  data_unavailable_plain_deny none (some ufD) (some cfD) "u1" 720 (Or.inl rfl)

/-- Claim C6 counterexample: an enabled policy targeting the subject whose
time string is malformed raises nothing when an earlier policy already
granted — the scan stops before reaching it and the call returns a grant,
not an invalid-format error. -/
theorem malformed_time_shadowed_cex :
    pMalformed.status = "enabled" ∧ "u1" ∈ pMalformed.users ∧
    parseTime "banana" = none ∧
    simulate_access (some ⟨[pGrantAll, pMalformed]⟩) (some ufD) (some cfD) "u1" 720 =
      .decision true [.policyGranted "P1" "u1"] := by
  refine ⟨rfl, by decide, by decide, by decide⟩

/-- Claim C6 (amended): a malformed start or end time string in an enabled
policy targeting the subject makes the whole call fail fast with an explicit
invalid-format error — neither defaulting the window nor skipping the
policy — provided the scan actually reaches that policy (data loaded, subject
found, no earlier grant or exception). -/
theorem malformed_time_fails_fast (pf : PolicyFile) (uf : UserFile)
    (cf : ContextFile) (uid : String) (t : Nat) (u : User)
    (l₁ l₂ : List Policy) (p : Policy) (log₁ : List LogEvent) (e : SimError)
    (hpols : pf.policies = l₁ ++ p :: l₂)
    (hu : uf.users.find? (fun x => x.id == uid) = some u)
    (hpre : evalPolicies uid cf.context t l₁ = .decision false log₁)
    (hp1 : p.status = "enabled") (hp2 : uid ∈ p.users)
    (htime : timeCheck p.conditions.time t = .error e) :
    simulate_access (some pf) (some uf) (some cf) uid t = .error e := by
  have hce : condsOk p.conditions cf.context t = .error e := by
    unfold condsOk
    rw [htime]
  have e1 : evalPolicies uid cf.context t (p :: l₂) = .error e :=
    eval_cons_conderr uid cf.context t p l₂ e hp1 hp2 hce
  have e2 : evalPolicies uid cf.context t (l₁ ++ p :: l₂) = .error e := by
    rw [evalPolicies_append uid cf.context t l₁ log₁ hpre (p :: l₂), e1]
  rw [simulate_access_eval pf uf cf uid t u hu, hpols, e2]

theorem malformed_time_fails_fast_witness :
    simulate_access (some ⟨[pMalformed]⟩) (some ufD) (some cfD) "u1" 720 =
      .error (.invalidTimeFormat "banana") :=
  malformed_time_fails_fast ⟨[pMalformed]⟩ ufD cfD "u1" 720 ⟨"u1"⟩ [] []
    pMalformed [] (.invalidTimeFormat "banana") (by decide) (by decide)
    (by decide) (by decide) (by decide) (by decide)

/-- Claim C7: with start and end parsed from their "HH:MM" strings (defaults
"00:00" and "23:59" when unset), the time condition holds exactly when
start <= t <= end, inclusive at both ends; in particular an 08:00-18:00
window with vacuous location and device conditions matches at 12:00 and
fails at 07:59 and at 18:01. -/
theorem time_window_inclusive (tr : TimeRestrictions) (t s e : Nat)
    (hs : parseTime (tr.start_time.getD "00:00") = some s)
    (he : parseTime (tr.end_time.getD "23:59") = some e) :
    (timeCheck (some tr) t = .ok true ↔ (s ≤ t ∧ t ≤ e)) ∧
    condsOk ⟨some ⟨some "08:00", some "18:00"⟩, [], ""⟩ cfD.context 720 = .ok true ∧
    condsOk ⟨some ⟨some "08:00", some "18:00"⟩, [], ""⟩ cfD.context 479 = .ok false ∧
    condsOk ⟨some ⟨some "08:00", some "18:00"⟩, [], ""⟩ cfD.context 1081 = .ok false := by
  refine ⟨?_, by decide, by decide, by decide⟩
  simp only [timeCheck, hs, he]
  constructor
  · intro hok
    have hb := CondResult.ok.inj hok
    constructor
    · exact of_decide_eq_true (Bool.and_elim_left hb)
    · exact of_decide_eq_true (Bool.and_elim_right hb)
  · intro hst
    have h1 : decide (s ≤ t) = true := decide_eq_true hst.1
    have h2 : decide (t ≤ e) = true := decide_eq_true hst.2
    rw [h1, h2]
    rfl

theorem time_window_inclusive_witness :
    (timeCheck (some ⟨some "08:00", some "18:00"⟩) 720 = .ok true ↔
      (480 ≤ 720 ∧ 720 ≤ 1080)) ∧
    condsOk ⟨some ⟨some "08:00", some "18:00"⟩, [], ""⟩ cfD.context 720 = .ok true ∧
    condsOk ⟨some ⟨some "08:00", some "18:00"⟩, [], ""⟩ cfD.context 479 = .ok false ∧
    condsOk ⟨some ⟨some "08:00", some "18:00"⟩, [], ""⟩ cfD.context 1081 = .ok false :=
  time_window_inclusive ⟨some "08:00", some "18:00"⟩ 720 480 1080
    (by decide) (by decide)

/-- Every message the scan emits comes from a matched policy: a grant message
from a qualifying one, a no-grant message from a matched non-granting one;
skipped policies (disabled or not targeting the subject) emit nothing.  When
the scan grants, a grant message naming a qualifying policy is in the log. -/
theorem evalPolicies_log_shape (uid : String) (c : Context) (t : Nat) :
    ∀ (ps : List Policy) (g : Bool) (log : List LogEvent),
      evalPolicies uid c t ps = .decision g log →
      (∀ ev ∈ log,
        (∃ p ∈ ps, qualifies uid c t p ∧ ev = .policyGranted p.name uid) ∨
        (∃ p ∈ ps, p.status = "enabled" ∧ uid ∈ p.users ∧
          condsOk p.conditions c t = .ok true ∧
          ¬ p.grant_controls.access = some "grant" ∧
          ev = .policyNoGrant p.name uid)) ∧
      (g = true → ∃ p ∈ ps, qualifies uid c t p ∧
        .policyGranted p.name uid ∈ log) := by
  intro ps
  induction ps with
  | nil =>
    intro g log h
    rw [evalPolicies_nil] at h
    obtain ⟨hg, hl⟩ := SimResult.decision.inj h
    subst hg
    subst hl
    exact ⟨fun ev hev => absurd hev (List.not_mem_nil ev), fun hg => nomatch hg⟩
  | cons p ps ih =>
    intro g log h
    have weaken :
        (∀ ev ∈ log,
          (∃ q ∈ ps, qualifies uid c t q ∧ ev = .policyGranted q.name uid) ∨
          (∃ q ∈ ps, q.status = "enabled" ∧ uid ∈ q.users ∧
            condsOk q.conditions c t = .ok true ∧
            ¬ q.grant_controls.access = some "grant" ∧
            ev = .policyNoGrant q.name uid)) →
        (g = true → ∃ q ∈ ps, qualifies uid c t q ∧
          .policyGranted q.name uid ∈ log) →
        (∀ ev ∈ log,
          (∃ q ∈ p :: ps, qualifies uid c t q ∧ ev = .policyGranted q.name uid) ∨
          (∃ q ∈ p :: ps, q.status = "enabled" ∧ uid ∈ q.users ∧
            condsOk q.conditions c t = .ok true ∧
            ¬ q.grant_controls.access = some "grant" ∧
            ev = .policyNoGrant q.name uid)) ∧
        (g = true → ∃ q ∈ p :: ps, qualifies uid c t q ∧
          .policyGranted q.name uid ∈ log) := by
      intro hall hgr
      constructor
      · intro ev hev
        rcases hall ev hev with ⟨q, hq, hrest⟩ | ⟨q, hq, hrest⟩
        · exact Or.inl ⟨q, List.mem_cons_of_mem p hq, hrest⟩
        · exact Or.inr ⟨q, List.mem_cons_of_mem p hq, hrest⟩
      · intro hg
        obtain ⟨q, hq, hrest⟩ := hgr hg
        exact ⟨q, List.mem_cons_of_mem p hq, hrest⟩
    by_cases h1 : p.status = "enabled"
    · by_cases h2 : uid ∈ p.users
      · cases h3 : condsOk p.conditions c t with
        | error e =>
          rw [eval_cons_conderr uid c t p ps e h1 h2 h3] at h
          cases h
        | ok met =>
          cases met with
          | false =>
            rw [eval_cons_condfail uid c t p ps h1 h2 h3] at h
            obtain ⟨ha, hb⟩ := ih g log h
            exact weaken ha hb
          | true =>
            by_cases h4 : p.grant_controls.access = some "grant"
            · rw [eval_cons_grant uid c t p ps h1 h2 h3 h4] at h
              obtain ⟨hg, hl⟩ := SimResult.decision.inj h
              subst hg
              subst hl
              constructor
              · intro ev hev
                rw [List.mem_singleton] at hev
                subst hev
                exact Or.inl ⟨p, List.mem_cons_self p ps, ⟨h1, h2, h3, h4⟩, rfl⟩
              · intro _
                exact ⟨p, List.mem_cons_self p ps, ⟨h1, h2, h3, h4⟩,
                  List.mem_singleton.mpr rfl⟩
            · cases heq : evalPolicies uid c t ps with
              | error e =>
                rw [eval_cons_nogrant_err uid c t p ps e h1 h2 h3 h4 heq] at h
                cases h
              | decision g' log' =>
                rw [eval_cons_nogrant uid c t p ps g' log' h1 h2 h3 h4 heq] at h
                obtain ⟨hg, hl⟩ := SimResult.decision.inj h
                subst hg
                subst hl
                obtain ⟨ha, hb⟩ := ih g' log' heq
                constructor
                · intro ev hev
                  rcases List.mem_cons.mp hev with hev | hev
                  · subst hev
                    exact Or.inr ⟨p, List.mem_cons_self p ps, h1, h2, h3, h4, rfl⟩
                  · rcases ha ev hev with ⟨q, hq, hrest⟩ | ⟨q, hq, hrest⟩
                    · exact Or.inl ⟨q, List.mem_cons_of_mem p hq, hrest⟩
                    · exact Or.inr ⟨q, List.mem_cons_of_mem p hq, hrest⟩
                · intro hg
                  obtain ⟨q, hq, hqual, hmem⟩ := hb hg
                  exact ⟨q, List.mem_cons_of_mem p hq, hqual,
                    List.mem_cons_of_mem _ hmem⟩
      · rw [eval_cons_not_target uid c t p ps h1 h2] at h
        obtain ⟨ha, hb⟩ := ih g log h
        exact weaken ha hb
    · rw [eval_cons_disabled uid c t p ps h1] at h
      obtain ⟨ha, hb⟩ := ih g log h
      exact weaken ha hb

/-- Claim C8 counterexample: the list contains one (disabled) policy "D1",
yet the result is the bare boolean plus a log carrying no entry for "D1" at
all: the output has no per-policy skipped/matched/granted trace. -/
theorem no_skip_trace_cex :
    simulate_access (some ⟨[pDisabled]⟩) (some ufD) (some cfD) "u1" 720 =
      .decision false [.accessDenied "u1"] ∧
    ([LogEvent.accessDenied "u1"].any (fun ev =>
      match ev with
      | .policyGranted n _ => n == "D1"
      | .policyNoGrant n _ => n == "D1"
      | _ => false)) = false := by
  constructor <;> decide

/-- Claim C8 (amended): the returned value is only the boolean; the emitted
messages name the authorizing policy on a grant and each matched-but-non-
granting policy, while skipped policies (disabled or not targeting the
subject) produce no message, and a deny ends with a nameless access-denied
line; when granted, a message naming a qualifying policy is present. -/
theorem trace_only_matched_policies (pf : PolicyFile) (uf : UserFile)
    (cf : ContextFile) (uid : String) (t : Nat) (g : Bool) (log : List LogEvent)
    (h : simulate_access (some pf) (some uf) (some cf) uid t = .decision g log) :
    (∀ ev ∈ log,
      ev = .userNotFound uid ∨ ev = .accessDenied uid ∨
      (∃ p ∈ pf.policies, qualifies uid cf.context t p ∧
        ev = .policyGranted p.name uid) ∨
      (∃ p ∈ pf.policies, p.status = "enabled" ∧ uid ∈ p.users ∧
        condsOk p.conditions cf.context t = .ok true ∧
        ¬ p.grant_controls.access = some "grant" ∧
        ev = .policyNoGrant p.name uid)) ∧
    (g = true → ∃ p ∈ pf.policies, qualifies uid cf.context t p ∧
      .policyGranted p.name uid ∈ log) := by
  cases hfind : uf.users.find? (fun x => x.id == uid) with
  | none =>
    rw [simulate_access_nouser pf uf cf uid t hfind] at h
    obtain ⟨hg, hl⟩ := SimResult.decision.inj h
    subst hg
    subst hl
    constructor
    · intro ev hev
      rw [List.mem_singleton] at hev
      subst hev
      exact Or.inl rfl
    · intro hg
      nomatch hg
  | some u =>
    rw [simulate_access_eval pf uf cf uid t u hfind] at h
    cases heq : evalPolicies uid cf.context t pf.policies with
    | error e =>
      rw [heq] at h
      simp at h
    | decision g' log' =>
      rw [heq] at h
      obtain ⟨ha, hb⟩ := evalPolicies_log_shape uid cf.context t pf.policies g' log' heq
      cases g' with
      | true =>
        simp only [if_true] at h
        obtain ⟨hg, hl⟩ := SimResult.decision.inj h
        subst hg
        subst hl
        constructor
        · intro ev hev
          rcases ha ev hev with hcase | hcase
          · exact Or.inr (Or.inr (Or.inl hcase))
          · exact Or.inr (Or.inr (Or.inr hcase))
        · intro _
          exact hb rfl
      | false =>
        simp only [Bool.false_eq_true, if_false] at h
        obtain ⟨hg, hl⟩ := SimResult.decision.inj h
        subst hg
        subst hl
        constructor
        · intro ev hev
          rcases List.mem_append.mp hev with hev | hev
          · rcases ha ev hev with hcase | hcase
            · exact Or.inr (Or.inr (Or.inl hcase))
            · exact Or.inr (Or.inr (Or.inr hcase))
          · rw [List.mem_singleton] at hev
            subst hev
            exact Or.inr (Or.inl rfl)
        · intro hg
          nomatch hg

theorem trace_only_matched_policies_witness :
    ∃ p ∈ [pGrantAll], qualifies "u1" cfD.context 720 p ∧
      LogEvent.policyGranted p.name "u1" ∈ [LogEvent.policyGranted "P1" "u1"] :=
  (trace_only_matched_policies ⟨[pGrantAll]⟩ ufD cfD "u1" 720 true
    [.policyGranted "P1" "u1"] (by decide)).2 rfl

/-- Claim C9 counterexample: identical policies, users, context and subject
id, but two different captured clock instants, give two different outcomes:
the decision is not a function of the three inputs and the subject id alone,
because `datetime.now()` is read inside the evaluation. -/
theorem clock_dependence_cex :
    simulate_access (some ⟨[pWindow]⟩) (some ufD) (some cfD) "u1" 720 ≠
      simulate_access (some ⟨[pWindow]⟩) (some ufD) (some cfD) "u1" 1140 := by
  decide

/-- Claim C9 (amended): evaluation is a pure deterministic function of the
three inputs, the subject id, and the evaluation instant captured from the
clock: runs on equal such inputs return equal results. -/
theorem eval_deterministic (policies policies' : Option PolicyFile)
    (users users' : Option UserFile) (context context' : Option ContextFile)
    (uid uid' : String) (t t' : Nat)
    (h1 : policies = policies') (h2 : users = users') (h3 : context = context')
    (h4 : uid = uid') (h5 : t = t') :
    simulate_access policies users context uid t =
      simulate_access policies' users' context' uid' t' := by
  subst h1
  subst h2
  subst h3
  subst h4
  subst h5
  rfl

theorem eval_deterministic_witness :
    simulate_access (some ⟨[pWindow]⟩) (some ufD) (some cfD) "u1" 720 =
      simulate_access (some ⟨[pWindow]⟩) (some ufD) (some cfD) "u1" 720 :=
  eval_deterministic (some ⟨[pWindow]⟩) (some ⟨[pWindow]⟩) (some ufD) (some ufD)
    (some cfD) (some cfD) "u1" "u1" 720 720 rfl rfl rfl rfl rfl

/-- Claim C10: a time window whose end is strictly before its start (a
would-be overnight window) is satisfied at no evaluation time: the literal
`start <= t <= end` comparison is always false, the policy's conditions
always fail, and the policy contributes nothing to the scan — it can never
be the source of a grant. -/
theorem overnight_window_never_matches (tr : TimeRestrictions) (s e t : Nat)
    (hs : parseTime (tr.start_time.getD "00:00") = some s)
    (he : parseTime (tr.end_time.getD "23:59") = some e)
    (hlt : e < s) (p : Policy) (hp : p.conditions.time = some tr)
    (uid : String) (c : Context) (rest : List Policy) :
    timeCheck (some tr) t = .ok false ∧
    condsOk p.conditions c t = .ok false ∧
    evalPolicies uid c t (p :: rest) = evalPolicies uid c t rest := by
  have htc : timeCheck (some tr) t = .ok false := by
    simp only [timeCheck, hs, he]
    by_cases hst : s ≤ t
    · have hte : decide (t ≤ e) = false := decide_eq_false (by omega)
      rw [hte, Bool.and_false]
    · have hsf : decide (s ≤ t) = false := decide_eq_false hst
      rw [hsf, Bool.false_and]
  have hco : condsOk p.conditions c t = .ok false := by
    unfold condsOk
    rw [hp, htc]
    simp
  refine ⟨htc, hco, ?_⟩
  by_cases h1 : p.status = "enabled"
  · by_cases h2 : uid ∈ p.users
    · exact eval_cons_condfail uid c t p rest h1 h2 hco
    · exact eval_cons_not_target uid c t p rest h1 h2
  · exact eval_cons_disabled uid c t p rest h1

theorem overnight_window_never_matches_witness :
    timeCheck (some ⟨some "18:00", some "08:00"⟩) 720 = .ok false ∧
    condsOk pOvernight.conditions cfD.context 720 = .ok false ∧
    evalPolicies "u1" cfD.context 720 [pOvernight] =
      evalPolicies "u1" cfD.context 720 [] :=
  overnight_window_never_matches ⟨some "18:00", some "08:00"⟩ 1080 480 720
    (by decide) (by decide) (by decide) pOvernight rfl "u1" cfD.context []

